import Mathlib

/-!
Shallow embedding of the sales controller (controllers/salesController.js)
of the AKA-RHIVE backend.  The document stores (Mongo collections for
items, sales and users) are modelled as lists of records with unique ids;
`findByIdAndUpdate` with an `$inc` modifier becomes a map over the item
list that adds a delta to the matching record's stock (a no-op when the id
is absent, as in Mongo); the aggregation pipeline of
`getFrequentlySoldItems` ($unwind, $match by date, $group by
(item_id, user_id) summing quantity) becomes flatten / filter / group
functions over the sale list.  Dates are integers counting days.
-/

/-- An inventory item record (models/Item). -/
structure Item where
  id : Nat
  item_name : String
  stock : Int
  supplier : String
  reorder_level : Int
deriving DecidableEq, Repr

/-- One line item of a sale: a reference to an item plus a quantity. -/
structure LineItem where
  item_id : Nat
  quantity : Int
deriving DecidableEq, Repr

/-- A sale record (models/Sale): header plus line items. -/
structure Sale where
  id : Nat
  user_id : Nat
  date : Int
  items : List LineItem
deriving DecidableEq, Repr

/-- A user record, as far as the controller reads it (id and name). -/
structure User where
  id : Nat
  name : String
deriving DecidableEq, Repr

/-- One grouped row of the aggregation: the `$group` stage keys by the
pair `(item_id, user_id)` and sums quantity into `totalQuantitySold`. -/
structure GroupRow where
  item_id : Nat
  user_id : Nat
  totalQuantitySold : Int
deriving DecidableEq, Repr

/-- One formatted entry of the report response, as built by
`formatResults` in the controller. -/
structure FormattedRow where
  _id : Nat
  item_name : String
  totalQuantitySold : Int
  stock : Int
  supplier : String
  reorder_level : Int
  user_name : String
deriving DecidableEq, Repr

/-- The HTTP-level outcome of a controller call. -/
inductive Resp where
  | created (s : Sale)
  | okSale (s : Sale)
  | okDeleted
  | notFound
  | badRequest (msg : String)
  | internalError
  | okReport (weekly monthly yearly : List FormattedRow)
deriving DecidableEq, Repr

/-- The combined database state: the three collections the controller
touches. -/
structure State where
  items : List Item
  sales : List Sale
  users : List User
deriving DecidableEq, Repr

/-- `Item.findByIdAndUpdate(id, \x7b $inc: \x7b stock: d \x7d \x7d)`:
adds `d` to the stock of the record whose id matches; when no record
matches, Mongo matches nothing and the store is unchanged. -/
def incStock (store : List Item) (i : Nat) (d : Int) : List Item :=
  store.map (fun it => if it.id == i then { it with stock := it.stock + d } else it)

/-- The stock-update loop of `createSale`: for each sold line item,
`$inc` the referenced item's stock by `-quantity`, in array order. -/
def decrementLoop (store : List Item) (ls : List LineItem) : List Item :=
  ls.foldl (fun s li => incStock s li.item_id (-li.quantity)) store

/-- The stock-adjust loop of `deleteSale`: for each line item of the
deleted sale, `$inc` the referenced item's stock by `+quantity`. -/
def incrementLoop (store : List Item) (ls : List LineItem) : List Item :=
  ls.foldl (fun s li => incStock s li.item_id li.quantity) store

/-- `Sale.findById` over the sale collection. -/
def findSale (sales : List Sale) (sid : Nat) : Option Sale :=
  sales.find? (fun s => s.id == sid)

/-- Look up an item record by id (populate step / join-on-read). -/
def findItem (items : List Item) (j : Nat) : Option Item :=
  items.find? (fun it => it.id == j)

/-- Look up a user record by id (populate step / join-on-read). -/
def findUser (users : List User) (j : Nat) : Option User :=
  users.find? (fun u => u.id == j)

/-- `createSale`: persist the sale (Mongo generates a fresh id, so the
new record is appended as given), then run the decrement loop over its
line items, and answer 201 with the sale. -/
def createSale (st : State) (sale : Sale) : State × Resp :=
  let st1 : State := { st with sales := st.sales ++ [sale] }
  let st2 : State := { st1 with items := decrementLoop st1.items sale.items }
  (st2, Resp.created sale)

/-- `deleteSale`: `findByIdAndDelete`, answering 404 when the id is
absent; otherwise remove the record, run the increment loop over the
line items stored on the deleted sale, and answer 200. -/
def deleteSale (st : State) (sid : Nat) : State × Resp :=
  match findSale st.sales sid with
  | none => (st, Resp.notFound)
  | some sale =>
    let st1 : State := { st with sales := st.sales.filter (fun s => !(s.id == sid)) }
    let st2 : State := { st1 with items := incrementLoop st1.items sale.items }
    (st2, Resp.okDeleted)

/-- A PUT body for a sale: any subset of the mutable fields. -/
structure SaleUpdate where
  user_id : Option Nat
  date : Option Int
  items : Option (List LineItem)
deriving DecidableEq, Repr

/-- Replace the fields present in the update body, keep the rest. -/
def applyUpdate (s : Sale) (u : SaleUpdate) : Sale :=
  { s with
    user_id := u.user_id.getD s.user_id
    date := u.date.getD s.date
    items := u.items.getD s.items }

/-- `updateSale`: `findByIdAndUpdate` with the request body; 404 when the
id is absent, otherwise the matched record is replaced field-wise and the
updated document is returned.  The item store is never touched. -/
def updateSale (st : State) (sid : Nat) (u : SaleUpdate) : State × Resp :=
  match findSale st.sales sid with
  | none => (st, Resp.notFound)
  | some sale =>
    let updated := applyUpdate sale u
    ({ st with sales := st.sales.map (fun s => if s.id == sid then updated else s) },
      Resp.okSale updated)

/-- The stock-update loop of `createSale` with the possibility that an
individual `findByIdAndUpdate` call throws (a database failure), modelled
by the predicate `fails` on item ids.  A thrown error aborts the loop:
the decrements already applied stay applied, and the error message is
returned alongside the item store reached so far. -/
def decrementLoopE (fails : Nat → Bool) : List Item → List LineItem →
    List Item × Option String
  | store, [] => (store, none)
  | store, li :: rest =>
    if fails li.item_id then (store, some "stock update failed")
    else decrementLoopE fails (incStock store li.item_id (-li.quantity)) rest

/-- `createSale` under the failure model: `sale.save()` has already
succeeded when the loop runs, and the single `catch` of the handler turns
any thrown error into a 400 response with the error message; the
persisted sale record is not rolled back. -/
def createSaleE (fails : Nat → Bool) (st : State) (sale : Sale) : State × Resp :=
  let sales1 := st.sales ++ [sale]
  match decrementLoopE fails st.items sale.items with
  | (items1, none) => ({ st with sales := sales1, items := items1 }, Resp.created sale)
  | (items1, some msg) => ({ st with sales := sales1, items := items1 }, Resp.badRequest msg)

/-- One `(item_id, user_id, quantity, date)` tuple, the shape each sale
line item takes after the `$unwind` stage. -/
structure Tup where
  item_id : Nat
  user_id : Nat
  quantity : Int
  date : Int
deriving DecidableEq, Repr

/-- `$unwind` applied to one sale: one tuple per line item. -/
def saleTuples (s : Sale) : List Tup :=
  s.items.map (fun li => { item_id := li.item_id, user_id := s.user_id,
                           quantity := li.quantity, date := s.date })

/-- `$unwind` applied to the whole sale collection. -/
def allTuples : List Sale → List Tup
  | [] => []
  | s :: rest => saleTuples s ++ allTuples rest

/-- The grouping key of the `$group` stage: the `(item_id, user_id)` pair. -/
def tupKey (t : Tup) : Nat × Nat := (t.item_id, t.user_id)

/-- `$sum` of the quantities of the tuples carrying a given key. -/
def sumQ (ts : List Tup) (k : Nat × Nat) : Int :=
  ((ts.filter (fun t => decide (tupKey t = k))).map Tup.quantity).sum

/-- The `$group` stage: one row per distinct `(item_id, user_id)` key
among the tuples, carrying the summed quantity. -/
def groupTotals (ts : List Tup) : List GroupRow :=
  ((ts.map tupKey).dedup).map
    (fun k => { item_id := k.1, user_id := k.2, totalQuantitySold := sumQ ts k })

/-- One facet of the pipeline: `$match \x7b date: \x7b $gte: bound \x7d \x7d`
then `$group`. -/
def windowRows (sales : List Sale) (bound : Int) : List GroupRow :=
  groupTotals ((allTuples sales).filter (fun t => decide (bound ≤ t.date)))

/-- The total quantity a `(item_id, user_id)` group sums to inside one
window: the quantity its row of `windowRows` carries. -/
def windowTotal (sales : List Sale) (bound : Int) (k : Nat × Nat) : Int :=
  sumQ ((allTuples sales).filter (fun t => decide (bound ≤ t.date))) k

/-- The three facet outputs of the aggregation. -/
structure Report where
  weekly : List GroupRow
  monthly : List GroupRow
  yearly : List GroupRow
deriving DecidableEq, Repr

/-- The `$facet` stage of `getFrequentlySoldItems`: the three windows are
computed independently over the same unwound sale history, each with its
own lower bound (`now - 7 days`, `now.setMonth(month-1)`,
`now.setFullYear(year-1)`, precomputed by the handler). -/
def getFrequentlySoldItems (sales : List Sale) (pastWeek pastMonth pastYear : Int) :
    Report :=
  { weekly := windowRows sales pastWeek
    monthly := windowRows sales pastMonth
    yearly := windowRows sales pastYear }

/-- `formatResults` applied to one grouped row after the populate step.
When the referenced item no longer exists, the populated `item_id` is
null and `item.item_id._id` throws, so no formatted row is produced
(`none`); a missing user only makes `item.user_id?.name` undefined,
which `|| "Unknown"` replaces — and JS `||` also replaces an empty
name string, which is falsy. -/
def formatRow (items : List Item) (users : List User) (row : GroupRow) :
    Option FormattedRow :=
  match findItem items row.item_id with
  | none => none
  | some it =>
    some { _id := it.id
           item_name := it.item_name
           totalQuantitySold := row.totalQuantitySold
           stock := it.stock
           supplier := it.supplier
           reorder_level := it.reorder_level
           user_name :=
             match findUser users row.user_id with
             | none => "Unknown"
             | some u => if u.name = "" then "Unknown" else u.name }

/-- `formatResults` over a window's rows: JS `Array.map` evaluates in
order and the first throw aborts the whole report request. -/
def formatResults (items : List Item) (users : List User) :
    List GroupRow → Option (List FormattedRow)
  | [] => some []
  | r :: rest =>
    match formatRow items users r with
    | none => none
    | some fr =>
      match formatResults items users rest with
      | none => none
      | some frs => some (fr :: frs)

/-- The whole `getFrequentlySoldItems` handler: aggregate, then format
the three windows; any throw inside formatting reaches the handler's
`catch` and is answered with a 500. -/
def frequentlySoldEndpoint (st : State) (pastWeek pastMonth pastYear : Int) : Resp :=
  let r := getFrequentlySoldItems st.sales pastWeek pastMonth pastYear
  match formatResults st.items st.users r.weekly with
  | none => Resp.internalError
  | some w =>
    match formatResults st.items st.users r.monthly with
    | none => Resp.internalError
    | some m =>
      match formatResults st.items st.users r.yearly with
      | none => Resp.internalError
      | some y => Resp.okReport w m y

/-- Net signed delta the loops apply to the item with id `j`: the sum of
`δ` over the line items referencing `j`. -/
def netDelta (δ : LineItem → Int) (ls : List LineItem) (j : Nat) : Int :=
  ((ls.filter (fun li => li.item_id == j)).map δ).sum

/-- Read the stock of the item with id `j`, when present. -/
def getStock (items : List Item) (j : Nat) : Option Int :=
  (findItem items j).map Item.stock

/-! ### Helper lemmas about the stock loops -/

theorem netDelta_nil (δ : LineItem → Int) (j : Nat) : netDelta δ [] j = 0 := by
  simp [netDelta]

theorem netDelta_cons (δ : LineItem → Int) (l : LineItem) (ls : List LineItem) (j : Nat) :
    netDelta δ (l :: ls) j
      = if l.item_id = j then δ l + netDelta δ ls j else netDelta δ ls j := by
  by_cases h : l.item_id = j <;>
    simp [netDelta, List.filter_cons, h]

/-- A stock loop is a per-record update: each item record ends with its
stock shifted by the net delta of the line items referencing it. -/
theorem foldl_incStock_eq (δ : LineItem → Int) (ls : List LineItem) (store : List Item) :
    ls.foldl (fun s li => incStock s li.item_id (δ li)) store
      = store.map (fun it => { it with stock := it.stock + netDelta δ ls it.id }) := by
  induction ls generalizing store with
  | nil =>
    rw [List.foldl_nil]
    conv_lhs => rw [show store = store.map id from (List.map_id store).symm]
    refine List.map_congr_left ?_
    intro it _
    simp [netDelta_nil]
  | cons l rest ih =>
    rw [List.foldl_cons, ih, incStock, List.map_map]
    refine List.map_congr_left ?_
    intro it _
    by_cases h : it.id = l.item_id
    · simp only [Function.comp_apply, h, beq_self_eq_true, if_true]
      simp [netDelta_cons, h, add_assoc]
    · have hne : (it.id == l.item_id) = false := by
        simpa using h
      simp only [Function.comp_apply, hne, Bool.false_eq_true, if_false]
      have : l.item_id ≠ it.id := fun hc => h hc.symm
      simp [netDelta_cons, this]

theorem decrementLoop_eq (store : List Item) (ls : List LineItem) :
    decrementLoop store ls
      = store.map (fun it =>
          { it with stock := it.stock + netDelta (fun li => -li.quantity) ls it.id }) :=
  foldl_incStock_eq _ ls store

theorem incrementLoop_eq (store : List Item) (ls : List LineItem) :
    incrementLoop store ls
      = store.map (fun it =>
          { it with stock := it.stock + netDelta LineItem.quantity ls it.id }) :=
  foldl_incStock_eq _ ls store

/-- The two net deltas of the create and delete loops cancel. -/
theorem netDelta_neg (ls : List LineItem) (j : Nat) :
    netDelta (fun li => -li.quantity) ls j = -netDelta LineItem.quantity ls j := by
  induction ls with
  | nil => simp [netDelta_nil]
  | cons l rest ih =>
    by_cases h : l.item_id = j
    · simp only [netDelta_cons, h, if_true, ih, neg_add]
    · simp [netDelta_cons, h, ih]

/-- Increment-after-decrement over the same line items is the identity on
the item store. -/
theorem incrementLoop_decrementLoop (store : List Item) (ls : List LineItem) :
    incrementLoop (decrementLoop store ls) ls = store := by
  rw [decrementLoop_eq, incrementLoop_eq, List.map_map]
  conv_rhs => rw [show store = store.map id from (List.map_id store).symm]
  refine List.map_congr_left ?_
  intro it _
  simp [netDelta_neg]

/-- A freshly generated sale id is found right after the append. -/
theorem findSale_append_self (sales : List Sale) (sale : Sale)
    (h : ∀ s ∈ sales, s.id ≠ sale.id) :
    findSale (sales ++ [sale]) sale.id = some sale := by
  unfold findSale
  rw [List.find?_append]
  have h1 : sales.find? (fun s => s.id == sale.id) = none :=
    List.find?_eq_none.2 (by intro s hs; simpa using h s hs)
  simp [h1, List.find?]

/-- Reading a stock through the decrement loop: present records shift by
the net negative delta, absent records stay absent. -/
theorem getStock_decrementLoop (store : List Item) (ls : List LineItem) (j : Nat) :
    getStock (decrementLoop store ls) j
      = (getStock store j).map
          (fun v => v + netDelta (fun li => -li.quantity) ls j) := by
  rw [decrementLoop_eq]
  unfold getStock findItem
  rw [List.find?_map]
  cases h : store.find? (fun it => it.id == j) with
  | none => simp [Function.comp_def, h]
  | some a =>
    have ha : a.id = j := by simpa using List.find?_some h
    simp [Function.comp_def, h, ha]

/-- When the mapped item ids are distinct, the line items referencing a
member's id are exactly that member. -/
theorem filter_eq_single_of_nodup (ls : List LineItem) (li : LineItem)
    (hnodup : (ls.map LineItem.item_id).Nodup) (hmem : li ∈ ls) :
    ls.filter (fun l => l.item_id == li.item_id) = [li] := by
  induction ls with
  | nil => cases hmem
  | cons a rest ih =>
    rcases List.mem_cons.1 hmem with rfl | hmem'
    · have hrest : ∀ l ∈ rest, ¬(l.item_id == li.item_id) = true := by
        intro l hl hbeq
        have : li.item_id ∈ rest.map LineItem.item_id :=
          List.mem_map.2 ⟨l, hl, by simpa using hbeq⟩
        exact (List.nodup_cons.1 hnodup).1 this
      simp [List.filter_cons, List.filter_eq_nil_iff.2 hrest]
    · have hne : ¬(a.item_id == li.item_id) = true := by
        intro hbeq
        have : a.item_id ∈ rest.map LineItem.item_id := by
          have : a.item_id = li.item_id := by simpa using hbeq
          exact this ▸ List.mem_map.2 ⟨li, hmem', rfl⟩
        exact (List.nodup_cons.1 hnodup).1 this
      rw [List.filter_cons]
      simp only [hne, if_false]
      exact ih (List.nodup_cons.1 hnodup).2 hmem'

/-- With distinct item ids, the net delta at a member's id is that
member's delta alone. -/
theorem netDelta_of_nodup (δ : LineItem → Int) (ls : List LineItem) (li : LineItem)
    (hnodup : (ls.map LineItem.item_id).Nodup) (hmem : li ∈ ls) :
    netDelta δ ls li.item_id = δ li := by
  unfold netDelta
  rw [filter_eq_single_of_nodup ls li hnodup hmem]
  simp

/-- The net delta only depends on the multiset of line items. -/
theorem netDelta_perm (δ : LineItem → Int) (ls ls' : List LineItem) (j : Nat)
    (h : List.Perm ls ls') : netDelta δ ls j = netDelta δ ls' j := by
  unfold netDelta
  exact List.Perm.sum_eq (List.Perm.map δ (List.Perm.filter _ h))

/-! ### Claim theorems: sale lifecycle -/

/-- Claim C1: creating a sale over distinct existing items and then deleting it
(with no interleaving operation) restores every item's stock to its value
before the creation — delete is the exact inverse of create on stock. -/
theorem create_then_delete_restores_stock (st : State) (sale : Sale)
    (hfresh : ∀ s ∈ st.sales, s.id ≠ sale.id)
    (hnodup : (sale.items.map LineItem.item_id).Nodup)
    (hex : ∀ li ∈ sale.items, ∃ it ∈ st.items, it.id = li.item_id) :
    (deleteSale (createSale st sale).1 sale.id).1.items = st.items ∧
    (deleteSale (createSale st sale).1 sale.id).2 = Resp.okDeleted := by
  have hfind : findSale (st.sales ++ [sale]) sale.id = some sale :=
    findSale_append_self _ _ hfresh
  constructor <;>
    simp [createSale, deleteSale, hfind, incrementLoop_decrementLoop]

/-- Claim C2: after a sale creation over distinct existing items, each
referenced item's stock has dropped by exactly its line quantity, and the
outcome is invariant under permuting the order of the per-item
decrements. -/
theorem createSale_decrements_each (st : State) (sale : Sale) (li : LineItem) (v : Int)
    (hnodup : (sale.items.map LineItem.item_id).Nodup)
    (hmem : li ∈ sale.items)
    (hstock : getStock st.items li.item_id = some v) :
    getStock (createSale st sale).1.items li.item_id = some (v - li.quantity) ∧
    ∀ ls', List.Perm ls' sale.items →
      decrementLoop st.items ls' = decrementLoop st.items sale.items := by
  constructor
  · have h1 : (createSale st sale).1.items = decrementLoop st.items sale.items := by
      simp [createSale]
    rw [h1, getStock_decrementLoop, hstock]
    simp only [Option.map_some']
    rw [netDelta_of_nodup _ _ _ hnodup hmem, sub_eq_add_neg]
  · intro ls' hperm
    rw [decrementLoop_eq, decrementLoop_eq]
    refine List.map_congr_left ?_
    intro it _
    rw [netDelta_perm _ _ _ _ hperm]

/-- Claim C3: deleting a sale id absent from the sale store answers 404 and
leaves the whole state — in particular every item's stock — unchanged. -/
theorem deleteSale_notFound (st : State) (sid : Nat)
    (h : findSale st.sales sid = none) :
    deleteSale st sid = (st, Resp.notFound) := by
  simp [deleteSale, h]

/-- Claim C4: a sale update never touches the item store, whatever the id and
whatever the payload (items field included). -/
theorem updateSale_items_unchanged (st : State) (sid : Nat) (u : SaleUpdate) :
    (updateSale st sid u).1.items = st.items := by
  unfold updateSale
  cases h : findSale st.sales sid <;> simp

/-! ### Helper lemmas about the report pipeline -/

theorem allTuples_append (xs ys : List Sale) :
    allTuples (xs ++ ys) = allTuples xs ++ allTuples ys := by
  induction xs with
  | nil => simp [allTuples]
  | cons a rest ih => simp [allTuples, ih]

theorem sumQ_append (ts us : List Tup) (k : Nat × Nat) :
    sumQ (ts ++ us) k = sumQ ts k + sumQ us k := by
  simp [sumQ, List.filter_append]

/-- Appending one single-line-item sale shifts one window total by its
quantity when it passes the date bound and carries the right key, and by
nothing otherwise. -/
theorem windowTotal_append_single (sales : List Sale) (s : Sale) (i : Nat) (q : Int)
    (b : Int) (k : Nat × Nat) (hitems : s.items = [{ item_id := i, quantity := q }]) :
    windowTotal (sales ++ [s]) b k
      = windowTotal sales b k +
          (if b ≤ s.date ∧ (i, s.user_id) = k then q else 0) := by
  have h2 : allTuples [s]
      = [{ item_id := i, user_id := s.user_id, quantity := q, date := s.date }] := by
    simp [allTuples, saleTuples, hitems]
  unfold windowTotal
  rw [allTuples_append, h2, List.filter_append, sumQ_append]
  by_cases hd : b ≤ s.date
  · by_cases hk : (i, s.user_id) = k
    · simp [List.filter, hd, sumQ, tupKey, hk]
    · simp [List.filter, hd, sumQ, tupKey, hk]
  · simp [List.filter, hd, sumQ]

/-- Every line item of every sale shows up as a tuple after `$unwind`. -/
theorem mem_allTuples (sales : List Sale) (s : Sale) (li : LineItem)
    (hs : s ∈ sales) (hli : li ∈ s.items) :
    ({ item_id := li.item_id, user_id := s.user_id,
       quantity := li.quantity, date := s.date } : Tup) ∈ allTuples sales := by
  induction sales with
  | nil => cases hs
  | cons a rest ih =>
    rcases List.mem_cons.1 hs with rfl | h'
    · exact List.mem_append.2 (Or.inl (List.mem_map.2 ⟨li, hli, rfl⟩))
    · exact List.mem_append.2 (Or.inr (ih h'))

/-- Every key occurring among the tuples owns a grouped row carrying the
summed quantity for that key. -/
theorem mem_groupTotals (ts : List Tup) (k : Nat × Nat) (hk : k ∈ ts.map tupKey) :
    ({ item_id := k.1, user_id := k.2, totalQuantitySold := sumQ ts k } : GroupRow)
      ∈ groupTotals ts := by
  unfold groupTotals
  exact List.mem_map.2 ⟨k, List.mem_dedup.2 hk, rfl⟩

/-- A window row whose item id no longer resolves makes the whole
formatting pass throw. -/
theorem formatResults_none_of_mem (items : List Item) (users : List User)
    (rows : List GroupRow) (row : GroupRow)
    (hmem : row ∈ rows) (habs : findItem items row.item_id = none) :
    formatResults items users rows = none := by
  induction rows with
  | nil => cases hmem
  | cons r rest ih =>
    rcases List.mem_cons.1 hmem with rfl | h'
    · simp [formatResults, formatRow, habs]
    · unfold formatResults
      cases hr : formatRow items users r with
      | none => rfl
      | some fr => rw [ih h']

/-! ### Claim theorems: report -/

/-- Claim C5, amended: the three windows are summed independently over the
same history.  A line item dated within the last 7 days contributes its
quantity to the weekly, monthly and yearly totals of its group
identically; a line item dated 40 days before now contributes to the
yearly total only — the monthly lower bound (`setMonth(month - 1)`) lies
at most 31 days before now, so a 40-day-old sale misses the monthly
window as well as the weekly one. -/
theorem report_window_contributions (sales : List Sale) (s : Sale) (i : Nat) (q : Int)
    (now pastMonth pastYear : Int)
    (hm1 : now - 31 ≤ pastMonth) (hm2 : pastMonth ≤ now - 28)
    (hy1 : now - 366 ≤ pastYear) (hy2 : pastYear ≤ now - 365)
    (hitems : s.items = [{ item_id := i, quantity := q }]) :
    (now - 7 ≤ s.date →
      windowTotal (sales ++ [s]) (now - 7) (i, s.user_id)
          = windowTotal sales (now - 7) (i, s.user_id) + q ∧
      windowTotal (sales ++ [s]) pastMonth (i, s.user_id)
          = windowTotal sales pastMonth (i, s.user_id) + q ∧
      windowTotal (sales ++ [s]) pastYear (i, s.user_id)
          = windowTotal sales pastYear (i, s.user_id) + q) ∧
    (s.date = now - 40 →
      windowTotal (sales ++ [s]) (now - 7) (i, s.user_id)
          = windowTotal sales (now - 7) (i, s.user_id) ∧
      windowTotal (sales ++ [s]) pastMonth (i, s.user_id)
          = windowTotal sales pastMonth (i, s.user_id) ∧
      windowTotal (sales ++ [s]) pastYear (i, s.user_id)
          = windowTotal sales pastYear (i, s.user_id) + q) := by
  constructor
  · intro hdate
    refine ⟨?_, ?_, ?_⟩ <;> rw [windowTotal_append_single sales s i q _ _ hitems]
    · have : now - 7 ≤ s.date ∧ (i, s.user_id) = (i, s.user_id) := ⟨hdate, rfl⟩
      simp [this]
    · have : pastMonth ≤ s.date ∧ (i, s.user_id) = (i, s.user_id) :=
        ⟨by omega, rfl⟩
      simp [this]
    · have : pastYear ≤ s.date ∧ (i, s.user_id) = (i, s.user_id) :=
        ⟨by omega, rfl⟩
      simp [this]
  · intro hdate
    refine ⟨?_, ?_, ?_⟩ <;> rw [windowTotal_append_single sales s i q _ _ hitems]
    · have : ¬(now - 7 ≤ s.date) := by omega
      simp [this]
    · have : ¬(pastMonth ≤ s.date) := by omega
      simp [this]
    · have : pastYear ≤ s.date ∧ (i, s.user_id) = (i, s.user_id) :=
        ⟨by omega, rfl⟩
      simp [this]

/-- Claim C6: grouping keys on the `(item_id, user_id)` pair: two sales of the
same item by two different users inside one window yield two distinct
rows, each carrying its own summed total. -/
theorem report_groups_by_item_and_user (sales : List Sale) (bound : Int)
    (s1 s2 : Sale) (li1 li2 : LineItem) (i : Nat)
    (hs1 : s1 ∈ sales) (hs2 : s2 ∈ sales)
    (h1 : li1 ∈ s1.items) (h2 : li2 ∈ s2.items)
    (hi1 : li1.item_id = i) (hi2 : li2.item_id = i)
    (hne : s1.user_id ≠ s2.user_id)
    (hd1 : bound ≤ s1.date) (hd2 : bound ≤ s2.date) :
    ∃ r1 ∈ windowRows sales bound, ∃ r2 ∈ windowRows sales bound,
      r1.item_id = i ∧ r1.user_id = s1.user_id ∧
      r2.item_id = i ∧ r2.user_id = s2.user_id ∧ r1 ≠ r2 ∧
      r1.totalQuantitySold = windowTotal sales bound (i, s1.user_id) ∧
      r2.totalQuantitySold = windowTotal sales bound (i, s2.user_id) := by
  have hkey : ∀ (s : Sale) (li : LineItem), s ∈ sales → li ∈ s.items →
      li.item_id = i → bound ≤ s.date →
      (i, s.user_id) ∈
        ((allTuples sales).filter (fun t => decide (bound ≤ t.date))).map tupKey := by
    intro s li hs hli hii hd
    refine List.mem_map.2
      ⟨{ item_id := li.item_id, user_id := s.user_id,
         quantity := li.quantity, date := s.date }, ?_, by simp [tupKey, hii]⟩
    exact List.mem_filter.2 ⟨mem_allTuples sales s li hs hli, by simpa using hd⟩
  refine ⟨_, mem_groupTotals _ _ (hkey s1 li1 hs1 h1 hi1 hd1),
          _, mem_groupTotals _ _ (hkey s2 li2 hs2 h2 hi2 hd2),
          rfl, rfl, rfl, rfl, ?_, rfl, rfl⟩
  intro hr
  exact hne (congrArg GroupRow.user_id hr)

/-- Claim C7, amended: a report entry joins its `user_id` against the user
store; a missing user yields `user_name = "Unknown"`, a present user
with a nonempty name yields that name, and — because JS `||` treats the
empty string as falsy — a present user whose name is `""` also yields
`"Unknown"`. -/
theorem formatRow_user_name (items : List Item) (users : List User)
    (row : GroupRow) (it : Item)
    (hit : findItem items row.item_id = some it) :
    (findUser users row.user_id = none →
       ∃ fr, formatRow items users row = some fr ∧ fr.user_name = "Unknown") ∧
    (∀ u, findUser users row.user_id = some u → u.name ≠ "" →
       ∃ fr, formatRow items users row = some fr ∧ fr.user_name = u.name) ∧
    (∀ u, findUser users row.user_id = some u → u.name = "" →
       ∃ fr, formatRow items users row = some fr ∧ fr.user_name = "Unknown") := by
  refine ⟨?_, ?_, ?_⟩
  · intro hu
    refine ⟨{ _id := it.id, item_name := it.item_name,
              totalQuantitySold := row.totalQuantitySold, stock := it.stock,
              supplier := it.supplier, reorder_level := it.reorder_level,
              user_name := "Unknown" }, ?_, rfl⟩
    simp [formatRow, hit, hu]
  · intro u hu hname
    refine ⟨{ _id := it.id, item_name := it.item_name,
              totalQuantitySold := row.totalQuantitySold, stock := it.stock,
              supplier := it.supplier, reorder_level := it.reorder_level,
              user_name := u.name }, ?_, rfl⟩
    simp [formatRow, hit, hu, hname]
  · intro u hu hname
    refine ⟨{ _id := it.id, item_name := it.item_name,
              totalQuantitySold := row.totalQuantitySold, stock := it.stock,
              supplier := it.supplier, reorder_level := it.reorder_level,
              user_name := "Unknown" }, ?_, rfl⟩
    simp [formatRow, hit, hu, hname]

/-- If some line item's decrement throws, the loop surfaces an error. -/
theorem decrementLoopE_some_of_fails (fails : Nat → Bool) (ls : List LineItem)
    (store : List Item) (h : ∃ li ∈ ls, fails li.item_id = true) :
    (decrementLoopE fails store ls).2 = some "stock update failed" := by
  induction ls generalizing store with
  | nil => simp at h
  | cons a rest ih =>
    by_cases ha : fails a.item_id = true
    · simp [decrementLoopE, ha]
    · have hrest : ∃ li ∈ rest, fails li.item_id = true := by
        rcases h with ⟨li, hli, hf⟩
        rcases List.mem_cons.1 hli with rfl | h'
        · exact absurd hf ha
        · exact ⟨li, h', hf⟩
      simp only [decrementLoopE, ha, Bool.false_eq_true, if_false]
      exact ih _ hrest

/-- Claim C8, amended: when an individual stock decrement throws after the
sale record has been persisted, the handler's single `catch` answers a
400 client error (not a 500) with the error message, and the persisted
sale record is not rolled back. -/
theorem createSale_decrement_failure (fails : Nat → Bool) (st : State) (sale : Sale)
    (h : ∃ li ∈ sale.items, fails li.item_id = true) :
    (createSaleE fails st sale).2 = Resp.badRequest "stock update failed" ∧
    sale ∈ (createSaleE fails st sale).1.sales := by
  have hsnd := decrementLoopE_some_of_fails fails sale.items st.items h
  cases hE : decrementLoopE fails st.items sale.items with
  | mk items1 err =>
    rw [hE] at hsnd
    simp only at hsnd
    subst hsnd
    constructor
    · simp [createSaleE, hE]
    · simp [createSaleE, hE]

/-- Claim C9: creating a sale whose single line item references an item id
absent from the item store still answers 201 with the persisted sale;
the `$inc` on the missing id matches no record, so no item's stock
changes and no error is raised. -/
theorem createSale_missing_item (st : State) (sale : Sale) (j : Nat) (q : Int)
    (hitems : sale.items = [{ item_id := j, quantity := q }])
    (habs : ∀ it ∈ st.items, it.id ≠ j) :
    (createSale st sale).2 = Resp.created sale ∧
    (createSale st sale).1.items = st.items ∧
    sale ∈ (createSale st sale).1.sales := by
  have hnoop : incStock st.items j (-q) = st.items := by
    conv_rhs => rw [show st.items = st.items.map id from (List.map_id _).symm]
    refine List.map_congr_left ?_
    intro it hmem
    have hne : (it.id == j) = false := by simpa using habs it hmem
    simp [hne]
  refine ⟨rfl, ?_, ?_⟩
  · simp [createSale, decrementLoop, hitems, hnoop]
  · simp [createSale]

/-- Claim C10: a grouped row of any of the three windows whose item id no
longer resolves to an item record makes the populate-and-format step
throw, so the whole report request answers 500 — there is no
"Unknown"-style fallback for missing items. -/
theorem report_missing_item_internalError (st : State) (w m y : Int) (row : GroupRow)
    (hmem : row ∈ (getFrequentlySoldItems st.sales w m y).weekly ∨
            row ∈ (getFrequentlySoldItems st.sales w m y).monthly ∨
            row ∈ (getFrequentlySoldItems st.sales w m y).yearly)
    (habs : findItem st.items row.item_id = none) :
    formatRow st.items st.users row = none ∧
    frequentlySoldEndpoint st w m y = Resp.internalError := by
  refine ⟨by simp [formatRow, habs], ?_⟩
  rcases hmem with h | h | h
  · simp [frequentlySoldEndpoint, formatResults_none_of_mem _ _ _ _ h habs]
  · cases hw : formatResults st.items st.users
        (getFrequentlySoldItems st.sales w m y).weekly with
    | none => simp [frequentlySoldEndpoint, hw]
    | some ws =>
      simp [frequentlySoldEndpoint, hw, formatResults_none_of_mem _ _ _ _ h habs]
  · cases hw : formatResults st.items st.users
        (getFrequentlySoldItems st.sales w m y).weekly with
    | none => simp [frequentlySoldEndpoint, hw]
    | some ws =>
      cases hm : formatResults st.items st.users
          (getFrequentlySoldItems st.sales w m y).monthly with
      | none => simp [frequentlySoldEndpoint, hw, hm]
      | some ms =>
        simp [frequentlySoldEndpoint, hw, hm,
          formatResults_none_of_mem _ _ _ _ h habs]

/-! ### Counterexamples -/

/-- Counterexample to claim C5 as stated: a line item dated 40 days
before now (now = 100, date = 60) does not contribute to the monthly
total of its group — the monthly window (here a 30-day month, lower
bound 70) excludes it and its monthly facet is empty — although it does
contribute its full quantity to the yearly total. -/
theorem report_40_days_not_in_monthly :
    (getFrequentlySoldItems [⟨1, 5, 60, [⟨2, 4⟩]⟩] 93 70 (-265)).monthly = [] ∧
    windowTotal [⟨1, 5, 60, [⟨2, 4⟩]⟩] 70 (2, 5) = 0 ∧
    (getFrequentlySoldItems [⟨1, 5, 60, [⟨2, 4⟩]⟩] 93 70 (-265)).yearly
      = [⟨2, 5, 4⟩] ∧
    windowTotal [⟨1, 5, 60, [⟨2, 4⟩]⟩] (-265) (2, 5) = 4 := by
  decide

/-- Counterexample to claim C7 as stated: a matching user record whose
name is the empty string does not yield its own name — JS `||` treats
`""` as falsy, so the formatted entry shows `"Unknown"`. -/
theorem formatRow_empty_name_not_user_name :
    formatRow [⟨3, "W", 10, "S", 2⟩] [⟨7, ""⟩] ⟨3, 7, 5⟩
      = some ⟨3, "W", 5, 10, "S", 2, "Unknown"⟩ ∧
    findUser [⟨7, ""⟩] 7 = some ⟨7, ""⟩ ∧
    ¬ ("Unknown" = User.name ⟨7, ""⟩) := by
  decide

/-- Counterexample to claim C8 as stated: a failing stock decrement after
the sale is persisted is answered by the handler's `catch` with a 400
client error carrying the message — not with a 500 InternalError — while
the sale record stays persisted. -/
theorem createSaleE_not_internalError :
    (createSaleE (fun j => j == 1) ⟨[⟨1, "A", 10, "S", 2⟩], [], []⟩
        ⟨7, 3, 0, [⟨1, 3⟩]⟩).2 = Resp.badRequest "stock update failed" ∧
    ¬ ((createSaleE (fun j => j == 1) ⟨[⟨1, "A", 10, "S", 2⟩], [], []⟩
        ⟨7, 3, 0, [⟨1, 3⟩]⟩).2 = Resp.internalError) ∧
    (⟨7, 3, 0, [⟨1, 3⟩]⟩ : Sale) ∈
      (createSaleE (fun j => j == 1) ⟨[⟨1, "A", 10, "S", 2⟩], [], []⟩
        ⟨7, 3, 0, [⟨1, 3⟩]⟩).1.sales := by
  decide

/-! ### Witnesses -/

/-- Witness for C1 at the spec's own example: items A (stock 10) and
B (stock 5), sale of 3 A and 2 B, then deletion restores both stocks. -/
theorem create_then_delete_restores_stock_witness :
    (∀ s ∈ ([] : List Sale), s.id ≠ 7) ∧
    (([⟨1, 3⟩, ⟨2, 2⟩] : List LineItem).map LineItem.item_id).Nodup ∧
    (∀ li ∈ ([⟨1, 3⟩, ⟨2, 2⟩] : List LineItem),
       ∃ it ∈ ([⟨1, "A", 10, "S", 2⟩, ⟨2, "B", 5, "S", 1⟩] : List Item),
         it.id = li.item_id) ∧
    ((deleteSale (createSale ⟨[⟨1, "A", 10, "S", 2⟩, ⟨2, "B", 5, "S", 1⟩], [], []⟩
          ⟨7, 3, 0, [⟨1, 3⟩, ⟨2, 2⟩]⟩).1 7).1.items
        = [⟨1, "A", 10, "S", 2⟩, ⟨2, "B", 5, "S", 1⟩] ∧
     (deleteSale (createSale ⟨[⟨1, "A", 10, "S", 2⟩, ⟨2, "B", 5, "S", 1⟩], [], []⟩
          ⟨7, 3, 0, [⟨1, 3⟩, ⟨2, 2⟩]⟩).1 7).2 = Resp.okDeleted) :=
  ⟨by decide, by decide, by decide,
    create_then_delete_restores_stock
      ⟨[⟨1, "A", 10, "S", 2⟩, ⟨2, "B", 5, "S", 1⟩], [], []⟩
      ⟨7, 3, 0, [⟨1, 3⟩, ⟨2, 2⟩]⟩ (by decide) (by decide) (by decide)⟩

/-- Witness for C2: the same sale drops item 1 from stock 10 to 7, and
any permutation of the two decrements gives the same store. -/
theorem createSale_decrements_each_witness :
    (([⟨1, 3⟩, ⟨2, 2⟩] : List LineItem).map LineItem.item_id).Nodup ∧
    (⟨1, 3⟩ : LineItem) ∈ ([⟨1, 3⟩, ⟨2, 2⟩] : List LineItem) ∧
    getStock [⟨1, "A", 10, "S", 2⟩, ⟨2, "B", 5, "S", 1⟩] 1 = some 10 ∧
    (getStock (createSale ⟨[⟨1, "A", 10, "S", 2⟩, ⟨2, "B", 5, "S", 1⟩], [], []⟩
          ⟨7, 3, 0, [⟨1, 3⟩, ⟨2, 2⟩]⟩).1.items 1 = some 7 ∧
     ∀ ls', List.Perm ls' ([⟨1, 3⟩, ⟨2, 2⟩] : List LineItem) →
       decrementLoop [⟨1, "A", 10, "S", 2⟩, ⟨2, "B", 5, "S", 1⟩] ls'
         = decrementLoop [⟨1, "A", 10, "S", 2⟩, ⟨2, "B", 5, "S", 1⟩]
             [⟨1, 3⟩, ⟨2, 2⟩]) :=
  ⟨by decide, by decide, by decide,
    createSale_decrements_each
      ⟨[⟨1, "A", 10, "S", 2⟩, ⟨2, "B", 5, "S", 1⟩], [], []⟩
      ⟨7, 3, 0, [⟨1, 3⟩, ⟨2, 2⟩]⟩ ⟨1, 3⟩ 10 (by decide) (by decide) (by decide)⟩

/-- Witness for C3: deleting id 5 from an empty sale store answers 404
and changes nothing. -/
theorem deleteSale_notFound_witness :
    findSale ([] : List Sale) 5 = none ∧
    deleteSale ⟨[], [], []⟩ 5 = (⟨[], [], []⟩, Resp.notFound) :=
  ⟨by decide, deleteSale_notFound ⟨[], [], []⟩ 5 (by decide)⟩

/-- Witness for C5 at now = 100, a 30-day monthly window (bound 70), a
365-day yearly window (bound -265), and a sale dated 93 = now - 7. -/
theorem report_window_contributions_witness :
    ((100 : Int) - 31 ≤ 70) ∧ ((70 : Int) ≤ 100 - 28) ∧
    ((100 : Int) - 366 ≤ -265) ∧ ((-265 : Int) ≤ 100 - 365) ∧
    (Sale.items ⟨1, 5, 93, [⟨2, 4⟩]⟩ = [⟨2, 4⟩]) ∧
    (((100 : Int) - 7 ≤ 93 →
        windowTotal [⟨1, 5, 93, [⟨2, 4⟩]⟩] (100 - 7) (2, 5)
            = windowTotal [] (100 - 7) (2, 5) + 4 ∧
        windowTotal [⟨1, 5, 93, [⟨2, 4⟩]⟩] 70 (2, 5)
            = windowTotal [] 70 (2, 5) + 4 ∧
        windowTotal [⟨1, 5, 93, [⟨2, 4⟩]⟩] (-265) (2, 5)
            = windowTotal [] (-265) (2, 5) + 4) ∧
     ((93 : Int) = 100 - 40 →
        windowTotal [⟨1, 5, 93, [⟨2, 4⟩]⟩] (100 - 7) (2, 5)
            = windowTotal [] (100 - 7) (2, 5) ∧
        windowTotal [⟨1, 5, 93, [⟨2, 4⟩]⟩] 70 (2, 5)
            = windowTotal [] 70 (2, 5) ∧
        windowTotal [⟨1, 5, 93, [⟨2, 4⟩]⟩] (-265) (2, 5)
            = windowTotal [] (-265) (2, 5) + 4)) :=
  ⟨by decide, by decide, by decide, by decide, by decide,
    report_window_contributions [] ⟨1, 5, 93, [⟨2, 4⟩]⟩ 2 4 100 70 (-265)
      (by decide) (by decide) (by decide) (by decide) rfl⟩

/-- Witness for C6: users 5 and 6 both sell item 2 inside the window and
get two distinct rows with their own totals. -/
theorem report_groups_by_item_and_user_witness :
    (⟨1, 5, 50, [⟨2, 4⟩]⟩ : Sale) ∈
      ([⟨1, 5, 50, [⟨2, 4⟩]⟩, ⟨9, 6, 50, [⟨2, 1⟩]⟩] : List Sale) ∧
    (⟨9, 6, 50, [⟨2, 1⟩]⟩ : Sale) ∈
      ([⟨1, 5, 50, [⟨2, 4⟩]⟩, ⟨9, 6, 50, [⟨2, 1⟩]⟩] : List Sale) ∧
    (⟨2, 4⟩ : LineItem) ∈ Sale.items ⟨1, 5, 50, [⟨2, 4⟩]⟩ ∧
    (⟨2, 1⟩ : LineItem) ∈ Sale.items ⟨9, 6, 50, [⟨2, 1⟩]⟩ ∧
    LineItem.item_id ⟨2, 4⟩ = 2 ∧ LineItem.item_id ⟨2, 1⟩ = 2 ∧
    (5 : Nat) ≠ 6 ∧ ((0 : Int) ≤ 50) ∧ ((0 : Int) ≤ 50) ∧
    (∃ r1 ∈ windowRows [⟨1, 5, 50, [⟨2, 4⟩]⟩, ⟨9, 6, 50, [⟨2, 1⟩]⟩] 0,
     ∃ r2 ∈ windowRows [⟨1, 5, 50, [⟨2, 4⟩]⟩, ⟨9, 6, 50, [⟨2, 1⟩]⟩] 0,
       r1.item_id = 2 ∧ r1.user_id = 5 ∧
       r2.item_id = 2 ∧ r2.user_id = 6 ∧ r1 ≠ r2 ∧
       r1.totalQuantitySold
           = windowTotal [⟨1, 5, 50, [⟨2, 4⟩]⟩, ⟨9, 6, 50, [⟨2, 1⟩]⟩] 0 (2, 5) ∧
       r2.totalQuantitySold
           = windowTotal [⟨1, 5, 50, [⟨2, 4⟩]⟩, ⟨9, 6, 50, [⟨2, 1⟩]⟩] 0 (2, 6)) :=
  ⟨by decide, by decide, by decide, by decide, by decide, by decide, by decide,
    by decide, by decide,
    report_groups_by_item_and_user
      [⟨1, 5, 50, [⟨2, 4⟩]⟩, ⟨9, 6, 50, [⟨2, 1⟩]⟩] 0
      ⟨1, 5, 50, [⟨2, 4⟩]⟩ ⟨9, 6, 50, [⟨2, 1⟩]⟩ ⟨2, 4⟩ ⟨2, 1⟩ 2
      (by decide) (by decide) (by decide) (by decide) (by decide) (by decide)
      (by decide) (by decide) (by decide)⟩

/-- Witness for C7: item 3 exists; a missing user id yields "Unknown"
and the present user "Ann" (nonempty name) yields "Ann". -/
theorem formatRow_user_name_witness :
    findItem [⟨3, "W", 10, "S", 2⟩] (GroupRow.item_id ⟨3, 7, 5⟩)
        = some ⟨3, "W", 10, "S", 2⟩ ∧
    ((findUser [⟨7, "Ann"⟩] (GroupRow.user_id ⟨3, 7, 5⟩) = none →
        ∃ fr, formatRow [⟨3, "W", 10, "S", 2⟩] [⟨7, "Ann"⟩] ⟨3, 7, 5⟩ = some fr ∧
          fr.user_name = "Unknown") ∧
     (∀ u, findUser [⟨7, "Ann"⟩] (GroupRow.user_id ⟨3, 7, 5⟩) = some u →
        u.name ≠ "" →
        ∃ fr, formatRow [⟨3, "W", 10, "S", 2⟩] [⟨7, "Ann"⟩] ⟨3, 7, 5⟩ = some fr ∧
          fr.user_name = u.name) ∧
     (∀ u, findUser [⟨7, "Ann"⟩] (GroupRow.user_id ⟨3, 7, 5⟩) = some u →
        u.name = "" →
        ∃ fr, formatRow [⟨3, "W", 10, "S", 2⟩] [⟨7, "Ann"⟩] ⟨3, 7, 5⟩ = some fr ∧
          fr.user_name = "Unknown")) :=
  ⟨by decide,
    formatRow_user_name [⟨3, "W", 10, "S", 2⟩] [⟨7, "Ann"⟩] ⟨3, 7, 5⟩
      ⟨3, "W", 10, "S", 2⟩ (by decide)⟩

/-- Witness for C8: the decrement on item 1 fails, the response is a 400
with the error message, and the sale is still persisted. -/
theorem createSale_decrement_failure_witness :
    (∃ li ∈ Sale.items ⟨7, 3, 0, [⟨1, 3⟩]⟩, (fun j => j == 1) li.item_id = true) ∧
    ((createSaleE (fun j => j == 1) ⟨[⟨1, "A", 10, "S", 2⟩], [], []⟩
          ⟨7, 3, 0, [⟨1, 3⟩]⟩).2 = Resp.badRequest "stock update failed" ∧
     (⟨7, 3, 0, [⟨1, 3⟩]⟩ : Sale) ∈
       (createSaleE (fun j => j == 1) ⟨[⟨1, "A", 10, "S", 2⟩], [], []⟩
          ⟨7, 3, 0, [⟨1, 3⟩]⟩).1.sales) :=
  ⟨by decide,
    createSale_decrement_failure (fun j => j == 1)
      ⟨[⟨1, "A", 10, "S", 2⟩], [], []⟩ ⟨7, 3, 0, [⟨1, 3⟩]⟩ (by decide)⟩

/-- Witness for C9: selling 4 of the absent item 99 still answers 201,
persists the sale and leaves the item store untouched. -/
theorem createSale_missing_item_witness :
    (Sale.items ⟨7, 3, 0, [⟨99, 4⟩]⟩ = [⟨99, 4⟩]) ∧
    (∀ it ∈ ([⟨1, "A", 10, "S", 2⟩] : List Item), it.id ≠ 99) ∧
    ((createSale ⟨[⟨1, "A", 10, "S", 2⟩], [], []⟩ ⟨7, 3, 0, [⟨99, 4⟩]⟩).2
        = Resp.created ⟨7, 3, 0, [⟨99, 4⟩]⟩ ∧
     (createSale ⟨[⟨1, "A", 10, "S", 2⟩], [], []⟩ ⟨7, 3, 0, [⟨99, 4⟩]⟩).1.items
        = [⟨1, "A", 10, "S", 2⟩] ∧
     (⟨7, 3, 0, [⟨99, 4⟩]⟩ : Sale) ∈
       (createSale ⟨[⟨1, "A", 10, "S", 2⟩], [], []⟩ ⟨7, 3, 0, [⟨99, 4⟩]⟩).1.sales) :=
  ⟨by decide, by decide,
    createSale_missing_item ⟨[⟨1, "A", 10, "S", 2⟩], [], []⟩ ⟨7, 3, 0, [⟨99, 4⟩]⟩
      99 4 rfl (by decide)⟩

/-- Witness for C10: item 2 was sold but its record is gone; the weekly
row for it exists, formatting throws and the endpoint answers 500. -/
theorem report_missing_item_internalError_witness :
    ((⟨2, 5, 4⟩ : GroupRow) ∈
        (getFrequentlySoldItems [⟨1, 5, 50, [⟨2, 4⟩]⟩] 0 0 0).weekly ∨
     (⟨2, 5, 4⟩ : GroupRow) ∈
        (getFrequentlySoldItems [⟨1, 5, 50, [⟨2, 4⟩]⟩] 0 0 0).monthly ∨
     (⟨2, 5, 4⟩ : GroupRow) ∈
        (getFrequentlySoldItems [⟨1, 5, 50, [⟨2, 4⟩]⟩] 0 0 0).yearly) ∧
    findItem ([] : List Item) (GroupRow.item_id ⟨2, 5, 4⟩) = none ∧
    (formatRow ([] : List Item) ([] : List User) ⟨2, 5, 4⟩ = none ∧
     frequentlySoldEndpoint ⟨[], [⟨1, 5, 50, [⟨2, 4⟩]⟩], []⟩ 0 0 0
        = Resp.internalError) :=
  ⟨by decide, by decide,
    report_missing_item_internalError ⟨[], [⟨1, 5, 50, [⟨2, 4⟩]⟩], []⟩ 0 0 0
      ⟨2, 5, 4⟩ (by decide) (by decide)⟩
